import Mathlib

/-!
Verification of the mconfig cache-handler subsystem.

The development shallowly embeds the Rust sources (src/src/error.rs,
src/src/handler.rs, src/src/lib.rs).  Asynchronous effects are made explicit:

* the MongoDB collection is an oracle `store : Nat → Except E (Option (MConfigEntry V))`
  giving the outcome of the n-th `find_one` call issued by the handler;
* the tokio `OnceCell<RwLock<Arc<V>>>` value cell becomes an `Option V` field,
  `none` meaning uninitialized (errors are never stored, matching
  `get_or_try_init`, which leaves the cell empty on failure);
* the spawned watch task becomes an `Option TaskStatus` field (`none` = never
  started, mirroring the `OnceCell<JoinHandle<()>>`);
* the tokio broadcast channel becomes an explicit ring-buffer model
  (`BroadcastChannel`) with the documented lag-drop behaviour of
  `tokio::sync::broadcast`;
* the change stream delivers concrete event values; the `$match` aggregation
  stage of `watch` is modelled as a boolean predicate applied to each event
  before it reaches `handle_stream_event`.
-/

namespace MConfig

variable {V E : Type}

/-- Source: src/src/error.rs lines 4-9.  `MConfigError` has two variants:
a wrapped MongoDB driver error and a missing-key error carrying the key.
The driver error type is abstracted as a type parameter `E`. -/
inductive MConfigError (E : Type) where
  | MongodbError (e : E)
  | KeyNotExists (key : String)
  deriving DecidableEq

/-- Source: src/src/handler.rs lines 15-19.  The record shape persisted in the
store: a lookup key and an opaque payload. -/
structure MConfigEntry (V : Type) where
  key : String
  value : V
  deriving DecidableEq

/-- Source: src/src/handler.rs lines 29-32.  The projected document the watch
stream deserializes events into: only the `value` field. -/
structure MConfigChangeResult (V : Type) where
  value : V
  deriving DecidableEq

/-- Model of `tokio::sync::broadcast`: `cap` is the capacity passed to
`broadcast::channel(receiver_cnt)` (src/src/lib.rs line 46) and `history` the
sequence of all values ever sent, oldest first.  The real channel retains only
the last `cap` entries; `receiverDrain` accounts for that. -/
structure BroadcastChannel (V : Type) where
  cap : Nat
  history : List V
  deriving DecidableEq

/-- Model of `broadcast::Sender::send`: appends the value to the channel
history (the real channel overwrites the oldest retained slot once full, which
`receiverDrain` reflects by dropping overwritten indices). -/
def bchanSend (ch : BroadcastChannel V) (v : V) : BroadcastChannel V :=
  { ch with history := ch.history ++ [v] }

/-- The values obtained by a `broadcast::Receiver` that subscribed when the
channel history had length `start` and drains the channel after all sends in
`history` have happened.  Per tokio semantics the receiver sees no value sent
before it subscribed (no replay) and, if it lags by more than `cap`, the
overwritten values are dropped (`RecvError::Lagged`): it receives exactly the
values with index at least `max start (history.length - cap)`. -/
def receiverDrain (ch : BroadcastChannel V) (start : Nat) : List V :=
  ch.history.drop (max start (ch.history.length - ch.cap))

/-- Status of the spawned watch task (`JoinHandle<()>`): running, or aborted
by `JoinHandle::abort` from `Drop`. -/
inductive TaskStatus where
  | running
  | aborted
  deriving DecidableEq

/-- Source: src/src/handler.rs lines 21-27.  The handler state: the watched
key, the value cell (`OnceCell<RwLock<Arc<V>>>`, `none` = uninitialized), the
watch-task cell (`OnceCell<JoinHandle<()>>`, `none` = not started), and the
optional broadcast sender.  The `collection` field is replaced by the store
oracle passed to the operations. -/
structure MConfigHandler (V : Type) where
  key : String
  value : Option V
  watcher : Option TaskStatus
  sender : Option (BroadcastChannel V)
  deriving DecidableEq

/-- Source: src/src/handler.rs lines 74-86 (`fetch_value`).  `resp` is the
outcome of the driver's `find_one`: found document, no document, or driver
error.  Found yields the entry's value; no document yields
`KeyNotExists(key)`; a driver error is wrapped in `MongodbError`. -/
def fetch_value (key : String) (resp : Except E (Option (MConfigEntry V))) :
    Except (MConfigError E) V :=
  match resp with
  | Except.ok (some task) => Except.ok task.value
  | Except.ok none => Except.error (MConfigError.KeyNotExists key)
  | Except.error e => Except.error (MConfigError.MongodbError e)

/-- Source: src/src/handler.rs lines 37-48 (`get_value`) and 55-72 (`init`),
for one (sequential) call.  `store` is the find_one oracle and `idx` the
number of lookups performed so far by this handler.  If the value cell is
initialized, the snapshot is cloned out with no lookup.  Otherwise `init`
runs: the watch task is started if it never was (`watcher.get_or_init`), one
`fetch_value` lookup is performed, and only a successful result is stored in
the cell (`get_or_try_init` leaves the cell empty on error).  Returns the
call's result, the new handler state, and the number of lookups this call
performed. -/
def get_value (store : Nat → Except E (Option (MConfigEntry V))) (idx : Nat)
    (h : MConfigHandler V) :
    Except (MConfigError E) V × MConfigHandler V × Nat :=
  match h.value with
  | some v => (Except.ok v, h, 0)
  | none =>
      let watcher1 : Option TaskStatus :=
        some (match h.watcher with
              | some s => s
              | none => TaskStatus.running)
      match fetch_value h.key (store idx) with
      | Except.ok v => (Except.ok v, { h with watcher := watcher1, value := some v }, 1)
      | Except.error e => (Except.error e, { h with watcher := watcher1 }, 1)

/-- Semantics of `value.get_or_try_init(|| self.init())` (src/src/handler.rs
line 38) for a batch of concurrent `get_value` callers arriving while the cell
is uninitialized, following the documented behaviour of
`tokio::sync::OnceCell::get_or_try_init`: initialization attempts are
serialized by an internal semaphore; the task holding the permit runs one
`init` (one `fetch_value` lookup); on success the value is stored and every
waiting caller receives that same value without further lookups; on failure
the error is returned only to the caller whose attempt failed, the cell stays
empty, and the next waiting caller runs a fresh `init`.  Arguments: number of
concurrent callers and the index of the next lookup; result: the list of
per-caller outcomes (in the order the permit was granted) and the number of
`find_one` lookups performed. -/
def get_or_try_init_race (store : Nat → Except E (Option (MConfigEntry V)))
    (key : String) : Nat → Nat → List (Except (MConfigError E) V) × Nat
  | 0, _ => ([], 0)
  | n + 1, idx =>
      match fetch_value key (store idx) with
      | Except.ok v => (List.replicate (n + 1) (Except.ok v), 1)
      | Except.error e =>
          let rest := get_or_try_init_race store key n (idx + 1)
          (Except.error e :: rest.1, rest.2 + 1)

/-- A change-stream event as produced by the collection before the `$match`
stage: its `operationType` string and, when attached, the full document (for
update events the post-image supplied by `FullDocumentType::UpdateLookup`, for
insert/replace the new document). -/
structure ChangeStreamRawEvent (V : Type) where
  operationType : String
  fullDocument : Option (MConfigEntry V)
  deriving DecidableEq

/-- Source: src/src/handler.rs lines 90-106.  The `$match` stage of the watch
pipeline: it requires `operationType` to equal the literal string `"update"`
and the field path `fullDocument.key` to equal the watched key (a missing
`fullDocument` makes the field path match nothing).  Only events satisfying
this predicate are delivered to the stream consumer. -/
def pipeline_match (key : String) (e : ChangeStreamRawEvent V) : Bool :=
  (e.operationType == "update") &&
    (match e.fullDocument with
     | some d => d.key == key
     | none => false)

/-- Source: src/src/handler.rs lines 140-157 (`handle_stream_event`).  If the
event carries no `full_document`, return with no effect.  Otherwise extract
the value, send it on the broadcast channel when a sender exists, and store it
in the value cell: through the write lock when the cell is initialized, via
`get_or_init` otherwise (both set the cell to the new value).  Returns the new
handler state and the list of values published to the channel's subscribers. -/
def handle_stream_event (h : MConfigHandler V)
    (full_document : Option (MConfigChangeResult V)) : MConfigHandler V × List V :=
  match full_document.map (fun d => d.value) with
  | none => (h, [])
  | some v =>
      let sent : List V := if h.sender.isSome then [v] else []
      let sender1 := h.sender.map (fun ch => bchanSend ch v)
      match h.value with
      | some _ => ({ h with sender := sender1, value := some v }, sent)
      | none => ({ h with sender := sender1, value := some v }, sent)

/-- The end-to-end effect of one collection change event on the handler: the
server-side pipeline filters it (`pipeline_match`); a surviving event is
deserialized into `ChangeStreamEvent<MConfigChangeResult<V>>` (the `$project`
stage keeps `fullDocument`, whose `value` field is the payload) and handed to
`handle_stream_event` (src/src/handler.rs lines 130-132). -/
def processEvent (key : String) (h : MConfigHandler V) (e : ChangeStreamRawEvent V) :
    MConfigHandler V × List V :=
  if pipeline_match key e then
    handle_stream_event h (e.fullDocument.map (fun d => ({ value := d.value } : MConfigChangeResult V)))
  else (h, [])

/-- Sequential processing of a list of change events by the watch task,
accumulating the published values in order. -/
def processEvents (key : String) :
    MConfigHandler V → List (ChangeStreamRawEvent V) → MConfigHandler V × List V
  | h, [] => (h, [])
  | h, e :: rest =>
      let step := processEvent key h e
      let cont := processEvents key step.1 rest
      (cont.1, step.2 ++ cont.2)

/-- Modelled from the spec: the actionable-event predicate claimed in §3 of
the spec — the event's affected key (here the key of the attached document)
equals the watched key, its `operationType` is `update`, `insert` or
`replace`, and it carries a `newValue` (here: a full document).  Stated for
comparison with the behaviour of `pipeline_match`/`processEvent` derived from
the source. -/
def specActionable (key : String) (e : ChangeStreamRawEvent V) : Bool :=
  (match e.fullDocument with
   | some d => d.key == key
   | none => false) &&
  (e.operationType == "update" || e.operationType == "insert" ||
    e.operationType == "replace") &&
  e.fullDocument.isSome

/-- One step of the `tokio::select!` in the streaming loop of `watch`
(src/src/handler.rs lines 119-138): either the 60-second liveness timer fires
(with the stream's `is_alive` answer), or `change_stream.next()` yields an
item — `some (some e)` for `Some(Ok(e))`, `some none` for `Some(Err(_))`,
`none` for end of stream. -/
inductive SelectOutcome (V : Type) where
  | sleepFired (alive : Bool)
  | next (item : Option (Option (ChangeStreamRawEvent V)))

/-- Source: src/src/handler.rs lines 119-138, the streaming loop of `watch`.
Processes select outcomes in order: a liveness tick on a live stream
continues; a liveness tick on a dead stream returns `false`; an `Ok` event is
handled by `processEvent` and the loop continues; an `Err` item or end of
stream returns `false`.  Result: the final handler state, the values
published, and `some r` when the loop returned with `watch`'s boolean `r`
(`none` when the supplied outcomes ran out while still streaming). -/
def runWatchSteps (key : String) :
    MConfigHandler V → List (SelectOutcome V) → MConfigHandler V × List V × Option Bool
  | h, [] => (h, [], none)
  | h, SelectOutcome.sleepFired alive :: rest =>
      if alive then runWatchSteps key h rest else (h, [], some false)
  | h, SelectOutcome.next none :: _ => (h, [], some false)
  | h, SelectOutcome.next (some none) :: _ => (h, [], some false)
  | h, SelectOutcome.next (some (some e)) :: rest =>
      let step := processEvent key h e
      let cont := runWatchSteps key step.1 rest
      (cont.1, step.2 ++ cont.2.1, cont.2.2)

/-- Source: src/src/handler.rs lines 89-139 (`watch`).  `sub` is the outcome
of `collection.watch()...await`: `none` when opening the change stream failed
(the `Err(_) => return true` arm), `some steps` when it opened and then
produced the given select outcomes.  Returns the handler state, the published
values, and the boolean `watch` returned (`some true` = wait before
reconnecting, `some false` = reconnect immediately). -/
def watch (key : String) (h : MConfigHandler V)
    (sub : Option (List (SelectOutcome V))) : MConfigHandler V × List V × Option Bool :=
  match sub with
  | none => (h, [], some true)
  | some steps => runWatchSteps key h steps

/-- Source: src/src/handler.rs lines 60-66, the spawned loop body: after
`watch` returns `is_wait`, sleep 10 seconds when it is `true`, none
otherwise, before the next `watch` call.  Returns the delay in seconds. -/
def loopIterationDelaySecs (is_wait : Bool) : Nat :=
  if is_wait then 10 else 0

/-- Source: src/src/handler.rs lines 160-166 (`Drop for MConfigHandler`): if
the watcher cell holds a task handle, abort it; otherwise do nothing.
`JoinHandle::abort` only signals cancellation — it is modelled as an
immediate state change and never waits for the task. -/
def dropHandler (h : MConfigHandler V) : MConfigHandler V :=
  { h with watcher := h.watcher.map (fun _ => TaskStatus.aborted) }

/-- Events are consumed by the spawned watch task only: a task that was never
started or was aborted runs no code, so no event is processed and nothing is
published. -/
def watcherProcessEvents (key : String) (h : MConfigHandler V)
    (events : List (ChangeStreamRawEvent V)) : MConfigHandler V × List V :=
  match h.watcher with
  | some TaskStatus.running => processEvents key h events
  | _ => (h, [])

/-- Source: src/src/lib.rs lines 20-26, the fields of `ClientOptions` that
`MConfigClient::create` reads or writes. -/
structure ClientOptions where
  default_database : Option String
  app_name : Option String
  deriving DecidableEq

/-- Source: src/src/lib.rs lines 14-16.  The client holds one collection
handle, identified here by its database and collection names. -/
structure MConfigClient where
  databaseName : String
  collectionName : String
  deriving DecidableEq

/-- Outcome of `MConfigClient::create`: a constructed client, or a panic.  The
Rust signature returns `Self` — there is no error variant to return. -/
inductive CreateOutcome where
  | ok (c : MConfigClient)
  | panicked
  deriving DecidableEq

/-- Source: src/src/lib.rs lines 19-32 (`MConfigClient::create`).
`parseResult` is the outcome of `ClientOptions::parse(connection_str)`,
`with_options` the outcome of `Client::with_options` on the amended options.
Each fallible step is followed by `.unwrap()`, so every failure panics:
a parse error, an absent `default_database`, or a client construction error
all yield `CreateOutcome.panicked`; no error value is ever returned. -/
def MConfigClient.create (parseResult : Except E ClientOptions)
    (collection_name : String) (with_options : ClientOptions → Except E Unit) :
    CreateOutcome :=
  match parseResult with
  | Except.error _ => CreateOutcome.panicked
  | Except.ok client_options =>
      match client_options.default_database with
      | none => CreateOutcome.panicked
      | some target_database =>
          match with_options { client_options with app_name := some collection_name } with
          | Except.error _ => CreateOutcome.panicked
          | Except.ok _ =>
              CreateOutcome.ok
                { databaseName := target_database, collectionName := collection_name }

/-! ## Claims -/

/-- Claim C1, counterexample.  The claim states that for every set of
concurrent `get_value` calls before the first successful initialization,
exactly one `find_one` lookup is performed and every caller receives the same
result.  Take two concurrent callers and a store whose first lookup fails with
a driver error and whose second finds the record: under the `get_or_try_init`
semantics two lookups are performed, the first caller receives
`MongodbError 7` and the second receives the value `5` — neither conjunct of
the claim holds. -/
theorem C1_counterexample :
    get_or_try_init_race
        (fun idx => if idx = 0 then Except.error 7
                    else Except.ok (some (⟨"k", 5⟩ : MConfigEntry Nat))) "k" 2 0
      = ([Except.error (MConfigError.MongodbError 7), Except.ok 5], 2)
    ∧ (2 : Nat) ≠ 1
    ∧ Except.error (MConfigError.MongodbError (7 : Nat))
        ≠ (Except.ok (5 : Nat) : Except (MConfigError Nat) Nat) := by
  refine ⟨rfl, by decide, ?_⟩
  intro h
  exact Except.noConfusion h

/-- Claim C1, amended: concurrent `get_value` calls arriving before the first
successful initialization have their lookups serialized by the
`get_or_try_init` gate; when the first lookup finds the record, exactly one
`find_one` is performed and every caller receives the identical value; when
the first lookup fails, the resulting error is returned only to the caller
that ran it and the remaining callers retry with fresh lookups. -/
theorem C1_single_flight (store : Nat → Except E (Option (MConfigEntry V)))
    (key : String) (n : Nat) :
    (∀ entry : MConfigEntry V, store 0 = Except.ok (some entry) →
        get_or_try_init_race store key (n + 1) 0
          = (List.replicate (n + 1) (Except.ok entry.value), 1))
    ∧ (∀ err : MConfigError E, fetch_value key (store 0) = Except.error err →
        get_or_try_init_race store key (n + 1) 0
          = (Except.error err :: (get_or_try_init_race store key n 1).1,
             (get_or_try_init_race store key n 1).2 + 1)) := by
  constructor
  · intro entry hst
    simp [get_or_try_init_race, fetch_value, hst]
  · intro err hf
    simp [get_or_try_init_race, hf]

/-- Witness for C1_single_flight: with a store that always finds the record
`⟨"k", 5⟩`, two concurrent callers perform one lookup and both receive `5`. -/
theorem C1_single_flight_witness :
    get_or_try_init_race
        (fun _ => (Except.ok (some (⟨"k", 5⟩ : MConfigEntry Nat)) :
          Except Nat (Option (MConfigEntry Nat)))) "k" 2 0
      = (List.replicate 2 (Except.ok 5), 1) :=
  (C1_single_flight _ "k" 1).1 ⟨"k", 5⟩ rfl

/-- Claim C2, counterexample.  The claim states an event is actionable iff its
affected key equals the watched key, its operation type is update, insert or
replace, and it carries a new value.  An `insert` event for the watched key
carrying a new value satisfies that predicate, yet the `$match` stage of the
watch pipeline only passes events whose `operationType` is the literal
`"update"`, so the event produces no cache update and no notification. -/
theorem C2_counterexample :
    specActionable "k" (⟨"insert", some ⟨"k", 5⟩⟩ : ChangeStreamRawEvent Nat) = true
    ∧ processEvent "k"
        ({ key := "k", value := some 1, watcher := some TaskStatus.running,
           sender := some ⟨10, []⟩ } : MConfigHandler Nat)
        ⟨"insert", some ⟨"k", 5⟩⟩
      = ({ key := "k", value := some 1, watcher := some TaskStatus.running,
           sender := some ⟨10, []⟩ }, []) := by
  constructor
  · rfl
  · rfl

/-- Claim C2, amended: an event delivered to the watch loop causes a Value
Cell update, and a notification publish when the handler has a channel, if and
only if its `operationType` is `update` and it carries a full document whose
`key` field equals the watched key; every other event produces no cache update
and no notification. -/
theorem C2_actionable (key : String) (h : MConfigHandler V)
    (e : ChangeStreamRawEvent V) :
    (∀ d : MConfigEntry V, e.fullDocument = some d → pipeline_match key e = true →
        (processEvent key h e).1.value = some d.value
        ∧ (processEvent key h e).2 = (if h.sender.isSome then [d.value] else []))
    ∧ (pipeline_match key e = false → processEvent key h e = (h, [])) := by
  constructor
  · intro d hd hpm
    cases hv : h.value <;>
      simp [processEvent, hpm, handle_stream_event, hd, hv]
  · intro hpm
    simp [processEvent, hpm]

/-- Witness for C2_actionable: a matching `update` event on a handler with a
channel updates the cell to `7` and publishes exactly `[7]`; a non-matching
`delete` event leaves the handler unchanged and publishes nothing. -/
theorem C2_actionable_witness :
    ((processEvent "k"
        ({ key := "k", value := none, watcher := none,
           sender := some ⟨10, []⟩ } : MConfigHandler Nat)
        ⟨"update", some ⟨"k", 7⟩⟩).1.value = some 7
      ∧ (processEvent "k"
          ({ key := "k", value := none, watcher := none,
             sender := some ⟨10, []⟩ } : MConfigHandler Nat)
          ⟨"update", some ⟨"k", 7⟩⟩).2 = [7])
    ∧ processEvent "k"
        ({ key := "k", value := none, watcher := none,
           sender := some ⟨10, []⟩ } : MConfigHandler Nat)
        (⟨"delete", some ⟨"k", 7⟩⟩ : ChangeStreamRawEvent Nat)
      = ({ key := "k", value := none, watcher := none, sender := some ⟨10, []⟩ }, []) := by
  constructor
  · have h := (C2_actionable "k"
      ({ key := "k", value := none, watcher := none,
         sender := some ⟨10, []⟩ } : MConfigHandler Nat)
      ⟨"update", some ⟨"k", 7⟩⟩).1 ⟨"k", 7⟩ rfl rfl
    simpa using h
  · exact (C2_actionable "k"
      ({ key := "k", value := none, watcher := none,
         sender := some ⟨10, []⟩ } : MConfigHandler Nat)
      ⟨"delete", some ⟨"k", 7⟩⟩).2 rfl

/-- Helper for C3: the streaming loop never returns `true` — once the
subscription opened, every exit (`Err` item, end of stream, failed liveness
check) returns `false`. -/
theorem runWatchSteps_ne_some_true (key : String) :
    ∀ (steps : List (SelectOutcome V)) (h : MConfigHandler V),
      (runWatchSteps key h steps).2.2 ≠ some true := by
  intro steps
  induction steps with
  | nil => intro h; simp [runWatchSteps]
  | cons s rest ih =>
    intro h
    cases s with
    | sleepFired alive =>
        cases alive with
        | false => simp [runWatchSteps]
        | true => simpa [runWatchSteps] using ih h
    | next item =>
        match item with
        | none => simp [runWatchSteps]
        | some none => simp [runWatchSteps]
        | some (some e) =>
            simpa [runWatchSteps] using ih (processEvent key h e).1

/-- Claim C3: in every iteration of the spawned loop, `watch` returns `true`
(and the loop then sleeps 10 seconds before reconnecting) exactly when
opening the change-stream subscription failed; when the subscription opened
but the stream later ended, errored, or failed the 60-second liveness check,
`watch` returns `false` and the loop reconnects with no wait. -/
theorem C3_reconnect_delay (key : String) (h : MConfigHandler V)
    (sub : Option (List (SelectOutcome V))) (r : Bool)
    (hr : (watch key h sub).2.2 = some r) :
    (r = true ↔ sub = none)
    ∧ (sub = none → loopIterationDelaySecs r = 10)
    ∧ (sub ≠ none → loopIterationDelaySecs r = 0) := by
  cases sub with
  | none =>
      simp only [watch, Option.some.injEq] at hr
      subst hr
      exact ⟨by simp, fun _ => rfl, fun hc => absurd rfl hc⟩
  | some steps =>
      have hne := runWatchSteps_ne_some_true key steps h
      simp only [watch] at hr
      cases r with
      | true => exact absurd hr hne
      | false =>
          refine ⟨by simp, fun hc => Option.noConfusion hc, fun _ => rfl⟩

/-- Witness for C3_reconnect_delay: on a failed subscription open the loop
waits 10 seconds; on an opened stream that immediately ended it waits 0. -/
theorem C3_reconnect_delay_witness :
    loopIterationDelaySecs true = 10 ∧ loopIterationDelaySecs false = 0 :=
  ⟨(C3_reconnect_delay "k"
      ({ key := "k", value := none, watcher := none, sender := none } : MConfigHandler Nat)
      none true rfl).2.1 rfl,
   (C3_reconnect_delay "k"
      ({ key := "k", value := none, watcher := none, sender := none } : MConfigHandler Nat)
      (some [SelectOutcome.next none]) false rfl).2.2 (by simp)⟩

/-- Helper: a `get_value` call on a handler whose value cell is uninitialized
performs exactly one `find_one` lookup, whatever its outcome. -/
theorem get_value_uninit_lookups (store : Nat → Except E (Option (MConfigEntry V)))
    (idx : Nat) (h : MConfigHandler V) (hcell : h.value = none) :
    (get_value store idx h).2.2 = 1 := by
  cases hf : fetch_value h.key (store idx) <;> simp [get_value, hcell, hf]

/-- Claim C4: a `get_value` call whose initialization fails returns
`KeyNotExists(key)` when the store has no record and `MongodbError(cause)`
when the lookup fails; in both cases the value cell remains uninitialized and
the call performed exactly one lookup, and the next `get_value` call runs the
initialization again (it performs a fresh lookup instead of returning a
cached failure). -/
theorem C4_failed_init_not_cached (store : Nat → Except E (Option (MConfigEntry V)))
    (idx : Nat) (h : MConfigHandler V) (hcell : h.value = none) :
    (store idx = Except.ok none →
        (get_value store idx h).1 = Except.error (MConfigError.KeyNotExists h.key))
    ∧ (∀ e : E, store idx = Except.error e →
        (get_value store idx h).1 = Except.error (MConfigError.MongodbError e))
    ∧ (∀ err : MConfigError E, fetch_value h.key (store idx) = Except.error err →
        (get_value store idx h).2.1.value = none
        ∧ (get_value store idx h).2.2 = 1
        ∧ (get_value store (idx + 1) (get_value store idx h).2.1).2.2 = 1) := by
  refine ⟨?_, ?_, ?_⟩
  · intro hst
    simp [get_value, fetch_value, hcell, hst]
  · intro e hst
    simp [get_value, fetch_value, hcell, hst]
  · intro err hf
    have h1 : (get_value store idx h).2.1.value = none := by
      simp [get_value, hcell, hf]
    exact ⟨h1, get_value_uninit_lookups store idx h hcell,
      get_value_uninit_lookups store (idx + 1) (get_value store idx h).2.1 h1⟩

/-- Witness for C4_failed_init_not_cached: against a store that never has the
record, a fresh handler's `get_value` fails with `KeyNotExists "k"`, leaves
the cell empty after one lookup, and the next call looks up again. -/
theorem C4_failed_init_not_cached_witness :
    (get_value (fun _ => (Except.ok none : Except Nat (Option (MConfigEntry Nat)))) 0
        { key := "k", value := none, watcher := none, sender := none }).1
      = Except.error (MConfigError.KeyNotExists "k")
    ∧ (get_value (fun _ => (Except.ok none : Except Nat (Option (MConfigEntry Nat)))) 0
        { key := "k", value := none, watcher := none, sender := none }).2.1.value = none
    ∧ (get_value (fun _ => (Except.ok none : Except Nat (Option (MConfigEntry Nat)))) 1
        (get_value (fun _ => (Except.ok none : Except Nat (Option (MConfigEntry Nat)))) 0
          { key := "k", value := none, watcher := none, sender := none }).2.1).2.2 = 1 := by
  have h := C4_failed_init_not_cached
    (fun _ => (Except.ok none : Except Nat (Option (MConfigEntry Nat)))) 0
    { key := "k", value := none, watcher := none, sender := none } rfl
  exact ⟨h.1 rfl, (h.2.2 (MConfigError.KeyNotExists "k") rfl).1,
    (h.2.2 (MConfigError.KeyNotExists "k") rfl).2.2⟩

/-- Claim C5, counterexample.  The claim states every subscriber created
before a qualifying change event receives exactly one notification for that
event.  With a broadcast channel of capacity 1 (the capacity is caller-chosen,
src/src/lib.rs line 46), a subscriber that subscribed before two qualifying
events but reads only after both were published finds the first value
overwritten: it receives only `[20]`, no notification for the event with
value `10`. -/
theorem C5_counterexample :
    (processEvents "k"
        ({ key := "k", value := none, watcher := some TaskStatus.running,
           sender := some ⟨1, []⟩ } : MConfigHandler Nat)
        [⟨"update", some ⟨"k", 10⟩⟩, ⟨"update", some ⟨"k", 20⟩⟩]).1.sender
      = some ⟨1, [10, 20]⟩
    ∧ receiverDrain (⟨1, [10, 20]⟩ : BroadcastChannel Nat) 0 = [20]
    ∧ (10 : Nat) ∉ receiverDrain (⟨1, [10, 20]⟩ : BroadcastChannel Nat) 0 := by
  refine ⟨rfl, rfl, by decide⟩

/-- Claim C5, amended: each qualifying change event publishes exactly one
notification, appended to the channel in store-apply order; a subscriber
created before the event receives it exactly once and in order provided the
total number of notifications stays within `start + capacity` when it reads
(a subscriber that lags further may miss it, per the channel's bounded
buffer); a subscriber created after the event never receives it (no replay of
history). -/
theorem C5_subscription (key : String) (h : MConfigHandler V)
    (e : ChangeStreamRawEvent V) (ch : BroadcastChannel V) (d : MConfigEntry V)
    (hs : h.sender = some ch) (hd : e.fullDocument = some d)
    (hpm : pipeline_match key e = true) :
    (processEvent key h e).2 = [d.value]
    ∧ (processEvent key h e).1.sender = some (bchanSend ch d.value)
    ∧ (∀ start, start ≤ ch.history.length →
        ch.history.length + 1 ≤ start + ch.cap →
        receiverDrain (bchanSend ch d.value) start
          = ch.history.drop start ++ [d.value])
    ∧ receiverDrain (bchanSend ch d.value) (ch.history.length + 1) = [] := by
  refine ⟨?_, ?_, ?_, ?_⟩
  · cases hv : h.value <;>
      simp [processEvent, hpm, handle_stream_event, hd, hs, hv]
  · cases hv : h.value <;>
      simp [processEvent, hpm, handle_stream_event, hd, hs, hv]
  · intro start hstart hcap
    have hmax : max start ((ch.history ++ [d.value]).length - ch.cap) = start := by
      apply Nat.max_eq_left
      simp only [List.length_append, List.length_singleton]
      omega
    simp only [receiverDrain, bchanSend, hmax]
    exact List.drop_append_of_le_length hstart
  · simp only [receiverDrain, bchanSend]
    apply List.drop_eq_nil_of_le
    simp only [List.length_append, List.length_singleton]
    exact Nat.le_max_left _ _

/-- Witness for C5_subscription: a qualifying update on a handler whose
channel (capacity 5) holds one earlier value `9`: exactly `[7]` is published,
the channel becomes `[9, 7]`, the subscriber that joined at the start
receives `[9, 7]` (the new value exactly once, in order), and a subscriber
joining after the event receives nothing. -/
theorem C5_subscription_witness :
    (processEvent "k"
        ({ key := "k", value := some 9, watcher := some TaskStatus.running,
           sender := some ⟨5, [9]⟩ } : MConfigHandler Nat)
        ⟨"update", some ⟨"k", 7⟩⟩).2 = [7]
    ∧ receiverDrain (bchanSend (⟨5, [9]⟩ : BroadcastChannel Nat) 7) 0 = [9, 7]
    ∧ receiverDrain (bchanSend (⟨5, [9]⟩ : BroadcastChannel Nat) 7) 2 = [] := by
  have h := C5_subscription "k"
    ({ key := "k", value := some 9, watcher := some TaskStatus.running,
       sender := some ⟨5, [9]⟩ } : MConfigHandler Nat)
    ⟨"update", some ⟨"k", 7⟩⟩ ⟨5, [9]⟩ ⟨"k", 7⟩ rfl rfl rfl
  exact ⟨h.1, by simpa using h.2.2.1 0 (by decide) (by decide), h.2.2.2⟩

/-- Claim C6: a value handle returned by `get_value` is an immutable snapshot
of the cache at read time.  A read on an initialized cell returns the current
snapshot `v0` with no lookup; an actionable event replaces the cell's
snapshot wholesale (the new cell content is the event's value, whatever the
previous content was, including for the handles already handed out, which are
`Arc` clones the write at src/src/handler.rs line 153 never touches — in this
embedding, the pure value `v0`); a read after the update returns the new
snapshot. -/
theorem C6_snapshot (key : String) (h : MConfigHandler V)
    (e : ChangeStreamRawEvent V) (d : MConfigEntry V) (v0 : V)
    (store : Nat → Except E (Option (MConfigEntry V))) (idx : Nat)
    (hv : h.value = some v0) (hd : e.fullDocument = some d)
    (hpm : pipeline_match key e = true) :
    get_value store idx h = (Except.ok v0, h, 0)
    ∧ (∀ w : Option V, (processEvent key { h with value := w } e).1.value = some d.value)
    ∧ get_value store idx (processEvent key h e).1
        = (Except.ok d.value, (processEvent key h e).1, 0) := by
  refine ⟨?_, ?_, ?_⟩
  · simp [get_value, hv]
  · intro w
    cases w <;> simp [processEvent, hpm, handle_stream_event, hd]
  · have h1 : (processEvent key h e).1.value = some d.value := by
      cases hv2 : h.value <;> simp [processEvent, hpm, handle_stream_event, hd, hv2]
    simp [get_value, h1]

/-- Witness for C6_snapshot: a handler caching `1` returns the handle `1`;
after an update event carrying `2` the cell holds `2` and a new read returns
`2`, while the earlier read's result is the value `1` obtained at read time. -/
theorem C6_snapshot_witness :
    get_value (fun _ => (Except.ok none : Except Nat (Option (MConfigEntry Nat)))) 0
        { key := "k", value := some 1, watcher := some TaskStatus.running, sender := none }
      = (Except.ok 1,
         { key := "k", value := some 1, watcher := some TaskStatus.running, sender := none }, 0)
    ∧ (processEvent "k"
        ({ key := "k", value := some 1, watcher := some TaskStatus.running,
           sender := none } : MConfigHandler Nat)
        ⟨"update", some ⟨"k", 2⟩⟩).1.value = some 2 := by
  have h := C6_snapshot "k"
    ({ key := "k", value := some 1, watcher := some TaskStatus.running,
       sender := none } : MConfigHandler Nat)
    ⟨"update", some ⟨"k", 2⟩⟩ ⟨"k", 2⟩ 1
    (fun _ => (Except.ok none : Except Nat (Option (MConfigEntry Nat)))) 0
    rfl rfl rfl
  exact ⟨h.1, by simpa using h.2.1 (some 1)⟩

/-- Claim C7: dropping a handler aborts its watch task when one was started
and does nothing otherwise; the teardown is idempotent; and after destruction
no event is processed and no notification is delivered (an aborted or
never-started task runs no code).  `JoinHandle::abort` only signals the
runtime, so the teardown never waits on in-flight subscription I/O — it is a
pure state transition here. -/
theorem C7_drop_handler (key : String) (h : MConfigHandler V) :
    (∀ s, h.watcher = some s → (dropHandler h).watcher = some TaskStatus.aborted)
    ∧ (h.watcher = none → (dropHandler h).watcher = none)
    ∧ dropHandler (dropHandler h) = dropHandler h
    ∧ ∀ events, watcherProcessEvents key (dropHandler h) events = (dropHandler h, []) := by
  refine ⟨?_, ?_, ?_, ?_⟩
  · intro s hs
    simp [dropHandler, hs]
  · intro hs
    simp [dropHandler, hs]
  · cases hs : h.watcher <;> simp [dropHandler, hs]
  · intro events
    cases hs : h.watcher <;> simp [dropHandler, watcherProcessEvents, hs]

/-- Witness for C7_drop_handler: a handler with a running watch task, once
dropped, has an aborted task, dropping again changes nothing, and a
subsequent qualifying event is not processed and publishes nothing. -/
theorem C7_drop_handler_witness :
    (dropHandler ({ key := "k", value := some 1,
                    watcher := some TaskStatus.running,
                    sender := some ⟨5, []⟩ } : MConfigHandler Nat)).watcher
      = some TaskStatus.aborted
    ∧ dropHandler (dropHandler ({ key := "k", value := some 1,
                                  watcher := some TaskStatus.running,
                                  sender := some ⟨5, []⟩ } : MConfigHandler Nat))
      = dropHandler { key := "k", value := some 1,
                      watcher := some TaskStatus.running,
                      sender := some ⟨5, []⟩ }
    ∧ watcherProcessEvents "k"
        (dropHandler ({ key := "k", value := some 1,
                        watcher := some TaskStatus.running,
                        sender := some ⟨5, []⟩ } : MConfigHandler Nat))
        [⟨"update", some ⟨"k", 2⟩⟩]
      = (dropHandler { key := "k", value := some 1,
                       watcher := some TaskStatus.running,
                       sender := some ⟨5, []⟩ }, []) := by
  have h := C7_drop_handler "k"
    ({ key := "k", value := some 1, watcher := some TaskStatus.running,
       sender := some ⟨5, []⟩ } : MConfigHandler Nat)
  exact ⟨h.1 TaskStatus.running rfl, h.2.2.1, h.2.2.2 [⟨"update", some ⟨"k", 2⟩⟩]⟩

/-- Claim C8, counterexample.  The claim attributes the lazy start of the
watch task to the first successful `get_value`.  But `init` starts the task
before performing the lookup (src/src/handler.rs lines 56-69), so a
`get_value` whose lookup fails already starts it: against a store that always
errors, the first call returns `MongodbError 7` — no successful call has
occurred — yet the watch task is running. -/
theorem C8_counterexample :
    (get_value (fun _ => (Except.error 7 : Except Nat (Option (MConfigEntry Nat)))) 0
        { key := "k", value := none, watcher := none, sender := none }).1
      = Except.error (MConfigError.MongodbError 7)
    ∧ (get_value (fun _ => (Except.error 7 : Except Nat (Option (MConfigEntry Nat)))) 0
        { key := "k", value := none, watcher := none, sender := none }).2.1.watcher
      = some TaskStatus.running := by
  exact ⟨rfl, rfl⟩

/-- Claim C8, amended: the watch task is started at most once — the first
`get_value` that enters initialization (whether its lookup succeeds or fails)
triggers the lazy start exactly once, an already-started task is never
replaced (so concurrent callers racing into the serialized initialization
start it only once), and once started it persists: no later call or processed
event changes it. -/
theorem C8_watcher_started_once (store : Nat → Except E (Option (MConfigEntry V)))
    (idx : Nat) (h : MConfigHandler V) :
    (h.value = none → h.watcher = none →
        (get_value store idx h).2.1.watcher = some TaskStatus.running)
    ∧ (∀ s, h.watcher = some s → (get_value store idx h).2.1.watcher = some s)
    ∧ (∀ key e, (processEvent key h e).1.watcher = h.watcher) := by
  refine ⟨?_, ?_, ?_⟩
  · intro hv hw
    cases hf : fetch_value h.key (store idx) <;> simp [get_value, hv, hw, hf]
  · intro s hw
    cases hv : h.value with
    | some v => simpa [get_value, hv] using hw
    | none => cases hf : fetch_value h.key (store idx) <;> simp [get_value, hv, hw, hf]
  · intro key e
    by_cases hpm : pipeline_match key e
    · cases hd : e.fullDocument with
      | none => simp [processEvent, hpm, handle_stream_event, hd]
      | some d =>
          cases hv : h.value <;>
            simp [processEvent, hpm, handle_stream_event, hd, hv]
    · simp [processEvent, hpm]

/-- Witness for C8_watcher_started_once: on a fresh handler a (successful)
`get_value` starts the task; on a handler whose task is already running it
stays running; an event does not change it. -/
theorem C8_watcher_started_once_witness :
    (get_value (fun _ => (Except.ok (some ⟨"k", 5⟩) : Except Nat (Option (MConfigEntry Nat)))) 0
        { key := "k", value := none, watcher := none, sender := none }).2.1.watcher
      = some TaskStatus.running
    ∧ (get_value (fun _ => (Except.ok (some ⟨"k", 5⟩) : Except Nat (Option (MConfigEntry Nat)))) 1
        { key := "k", value := some 5, watcher := some TaskStatus.running,
          sender := none }).2.1.watcher
      = some TaskStatus.running
    ∧ (processEvent "k"
        ({ key := "k", value := some 5, watcher := some TaskStatus.running,
           sender := none } : MConfigHandler Nat)
        ⟨"update", some ⟨"k", 6⟩⟩).1.watcher
      = some TaskStatus.running := by
  refine ⟨?_, ?_, ?_⟩
  · exact (C8_watcher_started_once
      (fun _ => (Except.ok (some ⟨"k", 5⟩) : Except Nat (Option (MConfigEntry Nat)))) 0
      { key := "k", value := none, watcher := none, sender := none }).1 rfl rfl
  · exact (C8_watcher_started_once
      (fun _ => (Except.ok (some ⟨"k", 5⟩) : Except Nat (Option (MConfigEntry Nat)))) 1
      { key := "k", value := some 5, watcher := some TaskStatus.running,
        sender := none }).2.1 TaskStatus.running rfl
  · exact (C8_watcher_started_once
      (fun _ => (Except.ok (some ⟨"k", 5⟩) : Except Nat (Option (MConfigEntry Nat)))) 0
      ({ key := "k", value := some 5, watcher := some TaskStatus.running,
         sender := none } : MConfigHandler Nat)).2.2 "k" ⟨"update", some ⟨"k", 6⟩⟩

/-- Claim C9: an actionable change event processed while the value cell is
still uninitialized initializes the cell with the event's value (the
`get_or_init` arm of `handle_stream_event`, src/src/handler.rs line 155), so
a subsequent `get_value` returns that value with zero `find_one` lookups. -/
theorem C9_event_initializes_cell (key : String) (h : MConfigHandler V)
    (e : ChangeStreamRawEvent V) (d : MConfigEntry V)
    (hv : h.value = none) (hd : e.fullDocument = some d)
    (hpm : pipeline_match key e = true) :
    (processEvent key h e).1.value = some d.value
    ∧ ∀ (store : Nat → Except E (Option (MConfigEntry V))) (idx : Nat),
        get_value store idx (processEvent key h e).1
          = (Except.ok d.value, (processEvent key h e).1, 0) := by
  have h1 : (processEvent key h e).1.value = some d.value := by
    simp [processEvent, hpm, handle_stream_event, hd, hv]
  exact ⟨h1, fun store idx => by simp [get_value, h1]⟩

/-- Witness for C9_event_initializes_cell: a fresh handler (cell empty, every
prior lookup having failed with `KeyNotExists`) that processes an update
event carrying `3` then answers `get_value` with `3` and zero lookups, even
against a store that still has no record. -/
theorem C9_event_initializes_cell_witness :
    (processEvent "k"
        ({ key := "k", value := none, watcher := some TaskStatus.running,
           sender := none } : MConfigHandler Nat)
        ⟨"update", some ⟨"k", 3⟩⟩).1.value = some 3
    ∧ get_value (fun _ => (Except.ok none : Except Nat (Option (MConfigEntry Nat)))) 4
        (processEvent "k"
          ({ key := "k", value := none, watcher := some TaskStatus.running,
             sender := none } : MConfigHandler Nat)
          ⟨"update", some ⟨"k", 3⟩⟩).1
      = (Except.ok 3,
         (processEvent "k"
           ({ key := "k", value := none, watcher := some TaskStatus.running,
              sender := none } : MConfigHandler Nat)
           ⟨"update", some ⟨"k", 3⟩⟩).1, 0) := by
  have h := C9_event_initializes_cell (E := Nat) "k"
    ({ key := "k", value := none, watcher := some TaskStatus.running,
       sender := none } : MConfigHandler Nat)
    ⟨"update", some ⟨"k", 3⟩⟩ ⟨"k", 3⟩ rfl rfl rfl
  exact ⟨h.1, h.2 (fun _ => (Except.ok none : Except Nat (Option (MConfigEntry Nat)))) 4⟩

/-- Claim C10: `MConfigClient::create` never returns an error — its return
type (`Self`, here `CreateOutcome` with no error variant) carries no
`StoreError`; a connection string that fails to parse, options lacking a
default database, and a client construction failure each panic via
`unwrap`. -/
theorem C10_create_panics (parseResult : Except E ClientOptions)
    (collection_name : String) (with_options : ClientOptions → Except E Unit) :
    (∀ e, parseResult = Except.error e →
        MConfigClient.create parseResult collection_name with_options
          = CreateOutcome.panicked)
    ∧ (∀ opts, parseResult = Except.ok opts → opts.default_database = none →
        MConfigClient.create parseResult collection_name with_options
          = CreateOutcome.panicked)
    ∧ (∀ opts db e2, parseResult = Except.ok opts →
        opts.default_database = some db →
        with_options { opts with app_name := some collection_name } = Except.error e2 →
        MConfigClient.create parseResult collection_name with_options
          = CreateOutcome.panicked) := by
  refine ⟨?_, ?_, ?_⟩
  · intro e he
    simp [MConfigClient.create, he]
  · intro opts hp hdb
    simp [MConfigClient.create, hp, hdb]
  · intro opts db e2 hp hdb hw
    rw [hdb] at hw
    simp [MConfigClient.create, hp, hdb, hw]

/-- Witness for C10_create_panics: a failed parse, a parse without default
database, and a client-construction failure each produce a panic, never an
error value. -/
theorem C10_create_panics_witness :
    MConfigClient.create (Except.error 3) "coll"
        (fun _ => (Except.ok () : Except Nat Unit))
      = CreateOutcome.panicked
    ∧ MConfigClient.create
        (Except.ok { default_database := none, app_name := none }) "coll"
        (fun _ => (Except.ok () : Except Nat Unit))
      = CreateOutcome.panicked
    ∧ MConfigClient.create
        (Except.ok { default_database := some "db", app_name := none }) "coll"
        (fun _ => (Except.error 9 : Except Nat Unit))
      = CreateOutcome.panicked := by
  refine ⟨?_, ?_, ?_⟩
  · exact (C10_create_panics (Except.error 3) "coll"
      (fun _ => (Except.ok () : Except Nat Unit))).1 3 rfl
  · exact (C10_create_panics
      (Except.ok { default_database := none, app_name := none }) "coll"
      (fun _ => (Except.ok () : Except Nat Unit))).2.1
      { default_database := none, app_name := none } rfl rfl
  · exact (C10_create_panics
      (Except.ok { default_database := some "db", app_name := none }) "coll"
      (fun _ => (Except.error 9 : Except Nat Unit))).2.2
      { default_database := some "db", app_name := none } "db" 9 rfl rfl rfl

end MConfig
